import Mathlib

/-!
Verification of the expression-calculator core (tokenizer, token classifier,
shunting-yard RPN builder, stack evaluator, and the `calc::calculate` entry
point) against its natural-language specification.

Shallow embedding notes:
* C `double` values are modelled as `ℚ`.  Every arithmetic step exercised by
  the verified properties (small-integer addition, subtraction,
  multiplication, division, integer powers) is exact in IEEE double
  arithmetic, so the rational model agrees with the C program on those
  inputs.  `pow` with a non-integer exponent and `sqrt` of a non-perfect
  square produce irrational values the rational model cannot represent;
  those cases are modelled by a documented default and are not relied on by
  any theorem below.
* C `strtod` is modelled for its decimal forms (optional leading whitespace,
  sign, digits, fraction, exponent).  The hexadecimal / infinity / NaN forms
  lie outside the rational value model and outside every verified input.
* Exceptions (`std::runtime_error`) are modelled with `Except`; the two
  failure channels of the builder (returning `false` with a stored message
  versus throwing) are kept distinct because the entry point treats them
  differently.
* The C expression `op(pop_value(stack), pop_value(stack))` leaves the order
  of the two pops unspecified by the C++ standard.  The program's documented
  behaviour (for example `2 ^ 3 ^ 2 = 64`) is produced when the second
  argument is evaluated first, which is the order of the builds this
  program ships with; the model fixes that order (see `binary_operation`).
-/

namespace Calc

/-- Mirrors `enum class Operation` from the source. -/
inductive Operation where
  | un_min
  | add
  | sub
  | mul
  | div
  | pow
  | sqrt
deriving DecidableEq, Repr

/-- Mirrors `using Value = std::variant<Operation, std::string, double>`. -/
inductive Value where
  | op (o : Operation)
  | var (s : String)
  | num (q : ℚ)
deriving DecidableEq, Repr

/-- Exact rational addition, written through `mkRat` so that it evaluates
by kernel reduction (the standard `Rat.add` is `@[irreducible]`); proved
equal to `· + ·` in `addQ_eq` below. -/
def addQ (a b : ℚ) : ℚ := mkRat (a.num * b.den + b.num * a.den) (a.den * b.den)

/-- Exact rational subtraction; proved equal to `· - ·` in `subQ_eq`. -/
def subQ (a b : ℚ) : ℚ := mkRat (a.num * b.den - b.num * a.den) (a.den * b.den)

/-- Exact rational multiplication; proved equal to `· * ·` in `mulQ_eq`. -/
def mulQ (a b : ℚ) : ℚ := mkRat (a.num * b.num) (a.den * b.den)

/-- Exact rational inverse (zero maps to zero); proved equal to `·⁻¹` in
`invQ_eq`. -/
def invQ (a : ℚ) : ℚ :=
  if 0 ≤ a.num then mkRat (a.den : ℤ) a.num.toNat
  else mkRat (-(a.den : ℤ)) (-a.num).toNat

/-- Exact rational division (division by zero maps to zero, as for `ℚ`);
proved equal to `· / ·` in `divQ_eq`. -/
def divQ (a b : ℚ) : ℚ := mulQ a (invQ b)

/-- Exact rational natural power; proved equal to `· ^ ·` in `npowQ_eq`. -/
def npowQ (a : ℚ) : ℕ → ℚ
  | 0 => 1
  | n + 1 => mulQ (npowQ a n) a

/-- Model of C `pow` restricted to the cases exact in the rational model:
an integer exponent yields the exact integer power (matching the double
computation wherever the latter is exact, which covers every verified
input); a non-integer exponent, whose true value is irrational in general,
is mapped to the documented default `0` and is not relied on by any
theorem. -/
def powQ (a b : ℚ) : ℚ :=
  if b.den = 1 then
    if 0 ≤ b.num then npowQ a b.num.toNat else invQ (npowQ a (-b.num).toNat)
  else 0

/-- Model of C `sqrt` restricted to the cases exact in the rational model:
a non-negative perfect-square rational yields its exact square root
(matching the double computation there); other arguments, whose true value
is irrational or NaN, are mapped to the documented default `0` and are not
relied on by any theorem. -/
def sqrtQ (a : ℚ) : ℚ :=
  if 0 ≤ a.num ∧ Nat.sqrt a.num.toNat ^ 2 = a.num.toNat ∧ Nat.sqrt a.den ^ 2 = a.den then
    mkRat (Nat.sqrt a.num.toNat : ℤ) (Nat.sqrt a.den)
  else 0

/-- Characters the C `isspace` recognises in the default locale. -/
def isSpaceC (c : Char) : Bool :=
  c = ' ' ∨ c = '\t' ∨ c = '\n' ∨ c = Char.ofNat 11 ∨ c = Char.ofNat 12 ∨ c = '\r'

/-- Mirrors the `is_symbol_token` lambda inside `getTokens`. -/
def is_symbol_token (c : Char) : Bool :=
  c = '-' ∨ c = '+' ∨ c = '*' ∨ c = '/' ∨ c = '^' ∨ c = '(' ∨ c = ')'

/-- Numeric value of a digit string, most significant digit first. -/
def digitsVal (ds : List Char) : ℕ :=
  ds.foldl (fun n c => 10 * n + (c.toNat - 48)) 0

/-- Model of C `strtod` on a character list: the value of the longest valid
decimal floating literal prefix together with the number of characters
consumed (`endptr - str`).  A result of `0` consumed characters corresponds
to `strtod` performing no conversion.  Restricted to the decimal literal
forms (leading whitespace, optional sign, digits, optional fraction,
optional exponent); hexadecimal, infinity and NaN forms are outside the
rational value model and outside every input verified below. -/
def strtodScan (cs : List Char) : ℚ × ℕ :=
  let ws := cs.takeWhile isSpaceC
  let afterWs := cs.drop ws.length
  let sign : ℤ × ℕ × List Char :=
    match afterWs with
    | c :: rest =>
      if c = '-' then (-1, 1, rest)
      else if c = '+' then (1, 1, rest)
      else (1, 0, afterWs)
    | [] => (1, 0, afterWs)
  let afterSign := sign.2.2
  let intDs := afterSign.takeWhile Char.isDigit
  let afterInt := afterSign.drop intDs.length
  let frac : List Char × ℕ × List Char :=
    match afterInt with
    | c :: rest =>
      if c = '.' then
        let ds := rest.takeWhile Char.isDigit
        (ds, 1, rest.drop ds.length)
      else ([], 0, afterInt)
    | [] => ([], 0, afterInt)
  let fracDs := frac.1
  let afterFrac := frac.2.2
  if intDs.length = 0 ∧ fracDs.length = 0 then (0, 0)
  else
    let expPart : ℤ × ℕ :=
      match afterFrac with
      | e :: rest =>
        if e = 'e' ∨ e = 'E' then
          let esign : ℤ × ℕ × List Char :=
            match rest with
            | c :: r2 =>
              if c = '-' then (-1, 1, r2)
              else if c = '+' then (1, 1, r2)
              else (1, 0, rest)
            | [] => (1, 0, rest)
          let expDs := esign.2.2.takeWhile Char.isDigit
          if expDs.length = 0 then (0, 0)
          else (esign.1 * (digitsVal expDs : ℤ), 1 + esign.2.1 + expDs.length)
        else (0, 0)
      | [] => (0, 0)
    let mantNum : ℤ := (digitsVal intDs : ℤ) * (10 : ℤ) ^ fracDs.length + (digitsVal fracDs : ℤ)
    let value : ℚ :=
      if 0 ≤ expPart.1 then
        mkRat (sign.1 * mantNum * (10 : ℤ) ^ expPart.1.toNat) ((10 : ℕ) ^ fracDs.length)
      else
        mkRat (sign.1 * mantNum) ((10 : ℕ) ^ fracDs.length * (10 : ℕ) ^ (-expPart.1).toNat)
    (value, ws.length + sign.2.1 + intDs.length + frac.2.1 + fracDs.length + expPart.2)

/-- Mirrors `str_to_number`: succeeds only when the conversion consumed at
least one character (`endptr != str`) and the whole string
(`*endptr == '\0'`). -/
def str_to_number (s : String) : Option ℚ :=
  let p := strtodScan s.data
  if p.2 ≠ 0 ∧ p.2 = s.data.length then some p.1 else none

/-- One token scan of `getTokens` starting at a position where leading
whitespace has already been skipped: a symbol character is its own token, a
run starting with a digit or a dot is the `strtod` span, and anything else
is a word extending to the next whitespace or symbol character.  Returns
the token together with the number of characters consumed. -/
def scanToken (cs : List Char) : String × ℕ :=
  match cs with
  | [] => ("", 0)
  | c :: _ =>
    if is_symbol_token c then (String.mk [c], 1)
    else if c.isDigit ∨ c = '.' then
      let n := (strtodScan cs).2
      (String.mk (cs.take n), n)
    else
      let w := cs.takeWhile (fun d => ¬ isSpaceC d ∧ ¬ is_symbol_token d)
      (String.mk w, w.length)

/-- Fuel-indexed loop of `getTokens`.  The C loop does not terminate when a
scan makes no progress (a lone `.` that `strtod` rejects); running out of
fuel models that divergence as `none`.  Every input appearing in a theorem
below terminates within the supplied fuel. -/
def getTokensGo : ℕ → List Char → List String → Option (List String)
  | 0, _, _ => none
  | _ + 1, [], acc => some acc.reverse
  | fuel + 1, c :: rest0, acc =>
    let cs' := (c :: rest0).dropWhile isSpaceC
    let p := scanToken cs'
    let rest := cs'.drop p.2
    let acc' := if p.1.isEmpty then acc else p.1 :: acc
    getTokensGo fuel rest acc'

/-- Mirrors `getTokens` on a non-null expression string. -/
def getTokens (s : String) : Option (List String) :=
  getTokensGo (s.data.length + 2) s.data []

/-- Mirrors `getTokens` including the `nullptr` sanity check (`none` stands
for a null `const char*`). -/
def getTokensC (expression : Option String) : Option (List String) :=
  match expression with
  | none => some []
  | some s => getTokens s

/-- Mirrors `enum class TokType` of `RPN_Builder` (`open`/`close` carry a
`_p` suffix because `open` is reserved in Lean). -/
inductive TokType where
  | number
  | var
  | open_p
  | close_p
  | un_min
  | add
  | sub
  | mul
  | div
  | pow
  | sqrt
  | undefined
deriving DecidableEq, Repr

/-- Builder failures: `graceful w` models the builder returning `false`
after storing `w` in `what_happened_message_`; `thrown m` models a
`std::runtime_error` escaping to the entry point's `catch`. -/
inductive BuildFailure where
  | graceful (what : String)
  | thrown (msg : String)
deriving DecidableEq, Repr

/-- Mirrors the keyword entries installed in `tokens_map_` by the
constructor; `none` for every other token. -/
def tokens_map (tok : String) : Option TokType :=
  if tok = "(" then some TokType.open_p
  else if tok = ")" then some TokType.close_p
  else if tok = "+" then some TokType.add
  else if tok = "-" then some TokType.sub
  else if tok = "*" then some TokType.mul
  else if tok = "/" then some TokType.div
  else if tok = "^" then some TokType.pow
  else if tok = "sqrt" then some TokType.sqrt
  else none

/-- Mirrors `RPN_Builder::to_token_type`; the second component is the
`double& number` out-parameter, which the caller resets to `0.0` before the
call and which is written only on a successful full-string numeric parse. -/
def to_token_type (tok : String) : TokType × ℚ :=
  match tokens_map tok with
  | some t => (t, 0)
  | none =>
    match str_to_number tok with
    | some v => (TokType.number, v)
    | none => (TokType.var, 0)

/-- Mirrors `RPN_Builder::to_operation`; the `throw` on non-operator kinds
becomes a `thrown` failure. -/
def to_operation (ttype : TokType) : Except BuildFailure Operation :=
  match ttype with
  | TokType.un_min => Except.ok Operation.un_min
  | TokType.add => Except.ok Operation.add
  | TokType.sub => Except.ok Operation.sub
  | TokType.mul => Except.ok Operation.mul
  | TokType.div => Except.ok Operation.div
  | TokType.pow => Except.ok Operation.pow
  | TokType.sqrt => Except.ok Operation.sqrt
  | _ => Except.error (BuildFailure.thrown "Incorrect expression")

/-- Mirrors `RPN_Builder::priority`; the `throw` on operand kinds becomes a
`thrown` failure. -/
def priority (ttype : TokType) : Except BuildFailure ℕ :=
  match ttype with
  | TokType.open_p => Except.ok 0
  | TokType.close_p => Except.ok 0
  | TokType.add => Except.ok 1
  | TokType.sub => Except.ok 1
  | TokType.mul => Except.ok 2
  | TokType.div => Except.ok 2
  | TokType.pow => Except.ok 3
  | TokType.un_min => Except.ok 4
  | TokType.sqrt => Except.ok 5
  | _ => Except.error (BuildFailure.thrown "Incorrect expression")

/-- Mirrors the adjacency sets installed in `prev_curr_token_map_` by the
constructor: for each previous token kind, the kinds allowed to follow it.
Every `TokType` is a key in the C++ map, so the lookup never fails. -/
def prev_curr_token_map (prev : TokType) : List TokType :=
  match prev with
  | TokType.number | TokType.var | TokType.close_p =>
    [TokType.add, TokType.sub, TokType.mul, TokType.div, TokType.pow, TokType.close_p]
  | TokType.un_min | TokType.add | TokType.sub | TokType.mul | TokType.div | TokType.pow =>
    [TokType.number, TokType.var, TokType.open_p, TokType.sqrt]
  | TokType.undefined | TokType.open_p =>
    [TokType.number, TokType.var, TokType.open_p, TokType.un_min, TokType.sqrt]
  | TokType.sqrt => [TokType.open_p]

/-- Mirrors `RPN_Builder::is_correct_token_order` including its defensive
`throw` when the current kind is `undefined`. -/
def is_correct_token_order (prev curr : TokType) : Except BuildFailure Bool :=
  if curr = TokType.undefined then Except.error (BuildFailure.thrown "Incorrect expression")
  else Except.ok (decide (curr ∈ prev_curr_token_map prev))

/-- Mirrors lines 318-320 of the builder loop: a `sub` token becomes
`un_min` exactly when the previous kind is `undefined` or `open`. -/
def disambiguate_minus (prev curr : TokType) : TokType :=
  if (prev = TokType.undefined ∨ prev = TokType.open_p) ∧ curr = TokType.sub then TokType.un_min
  else curr

/-- ASCII apostrophe, used by the error messages of
`incorrect_token_order_happened`. -/
def sq : String := String.singleton (Char.ofNat 39)

/-- Mirrors the `ttype_to_str` lambda inside
`incorrect_token_order_happened`. -/
def ttype_to_str (ttype : TokType) (token : String) : String :=
  match ttype with
  | TokType.number => "number " ++ token
  | TokType.var => "variable " ++ token
  | TokType.open_p => "open parenthesis"
  | TokType.close_p => "close parenthesis"
  | TokType.un_min => "unary minus " ++ sq ++ "-" ++ sq
  | TokType.add => "addition sign " ++ sq ++ "+" ++ sq
  | TokType.sub => "subtraction sign " ++ sq ++ "-" ++ sq
  | TokType.mul => "multiplication sign " ++ sq ++ "*" ++ sq
  | TokType.div => "division sign " ++ sq ++ "/" ++ sq
  | TokType.pow => "power sign " ++ sq ++ "^" ++ sq
  | TokType.sqrt => "sqrt function"
  | TokType.undefined => "undefined"

/-- Message built by `incorrect_token_order_happened` (its defensive
`throw` for an `undefined` current kind is unreachable: the caller has
already run `is_correct_token_order`, which throws first). -/
def incorrect_token_order_message (prev : TokType) (prevTok : String)
    (curr : TokType) (currTok : String) : String :=
  "Incorrect order of operands and operations in the expression.\nThe " ++
    ttype_to_str curr currTok ++ " cannot be " ++
    (if prev = TokType.undefined then "the first in an expression."
     else "after the " ++ ttype_to_str prev prevTok)

/-- Mirrors the close-parenthesis branch of the builder loop: pop and emit
operators until an open parenthesis is found and discarded; an emptied
stack is the extra-close failure. -/
def popUntilOpen : List TokType → List Value → Except BuildFailure (List TokType × List Value)
  | [], _ => Except.error (BuildFailure.graceful "Found extra close parentheses.")
  | t :: rest, out =>
    if t = TokType.open_p then Except.ok (rest, out)
    else
      match to_operation t with
      | Except.error e => Except.error e
      | Except.ok o => popUntilOpen rest (out ++ [Value.op o])

/-- Mirrors the operator branch of the builder loop: pop and emit while the
stack top's priority is greater than or equal to the current operator's
priority (an empty stack counts as priority `0`, which never reaches the
loop body because every operator's priority is at least `1`). -/
def popWhileGE (cp : ℕ) : List TokType → List Value → Except BuildFailure (List TokType × List Value)
  | [], out => Except.ok ([], out)
  | t :: rest, out =>
    match priority t with
    | Except.error e => Except.error e
    | Except.ok tp =>
      if cp ≤ tp then
        match to_operation t with
        | Except.error e => Except.error e
        | Except.ok o => popWhileGE cp rest (out ++ [Value.op o])
      else Except.ok (t :: rest, out)

/-- Mirrors the drain loop after the token scan: any remaining open
parenthesis is the extra-open failure, every other pending kind is
converted and appended. -/
def drainOps : List TokType → List Value → Except BuildFailure (List Value)
  | [], out => Except.ok out
  | t :: rest, out =>
    if t = TokType.open_p then Except.error (BuildFailure.graceful "Found extra open parentheses.")
    else
      match to_operation t with
      | Except.error e => Except.error e
      | Except.ok o => drainOps rest (out ++ [Value.op o])

/-- Per-token loop of `RPN_Builder::operator()`.  State: previous kind,
previous raw token, operator stack (head = top), output so far, operand
count.  Returns the final output, operator stack and operand count. -/
def buildGo : List String → TokType → String → List TokType → List Value → ℕ →
    Except BuildFailure (List Value × List TokType × ℕ)
  | [], _, _, ops, out, cnt => Except.ok (out, ops, cnt)
  | tok :: rest, prev, prevTok, ops, out, cnt =>
    let tn := to_token_type tok
    let curr := disambiguate_minus prev tn.1
    match is_correct_token_order prev curr with
    | Except.error e => Except.error e
    | Except.ok b =>
      if b then
        match curr with
        | TokType.number => buildGo rest curr tok ops (out ++ [Value.num tn.2]) (cnt + 1)
        | TokType.var => buildGo rest curr tok ops (out ++ [Value.var tok]) (cnt + 1)
        | TokType.sqrt => buildGo rest curr tok (curr :: ops) out cnt
        | TokType.open_p => buildGo rest curr tok (curr :: ops) out cnt
        | TokType.close_p =>
          match popUntilOpen ops out with
          | Except.error e => Except.error e
          | Except.ok so => buildGo rest curr tok so.1 so.2 cnt
        | TokType.undefined => Except.error (BuildFailure.thrown "Incorrect expression")
        | _ =>
          match priority curr with
          | Except.error e => Except.error e
          | Except.ok cp =>
            match popWhileGE cp ops out with
            | Except.error e => Except.error e
            | Except.ok so => buildGo rest curr tok (curr :: so.1) so.2 cnt
      else
        Except.error (BuildFailure.graceful
          (incorrect_token_order_message prev prevTok curr tok))

/-- Mirrors `RPN_Builder::operator()`: run the token loop from the
`undefined` previous state, fail with the no-operands message when no
operand token was seen, then drain the operator stack. -/
def RPN_Builder_run (tokens : List String) : Except BuildFailure (List Value) :=
  match buildGo tokens TokType.undefined "" [] [] 0 with
  | Except.error e => Except.error e
  | Except.ok r =>
    if r.2.2 = 0 then
      Except.error (BuildFailure.graceful "Expression does not contain any operands.")
    else drainOps r.2.1 r.1

/-- Mirrors `pop_value`: popping an empty value stack throws
"Incorrect expression".  The list head is the stack top. -/
def pop_value : List ℚ → Except String (ℚ × List ℚ)
  | [] => Except.error "Incorrect expression"
  | v :: rest => Except.ok (v, rest)

/-- Mirrors `binary_operation`'s `op(pop_value(stack), pop_value(stack))`.
The C++ standard leaves the evaluation order of the two arguments
unspecified; the order fixed here — the second argument `b` popped first,
so `b` receives the stack top and `a` the value below it — is the one that
produces the program's documented results (for example `2 ^ 3 ^ 2 = 64`)
and the behaviour of the builds this program ships with. -/
def binary_operation (f : ℚ → ℚ → Except String ℚ) (stack : List ℚ) :
    Except String (ℚ × List ℚ) :=
  match pop_value stack with
  | Except.error e => Except.error e
  | Except.ok (b, st1) =>
    match pop_value st1 with
    | Except.error e => Except.error e
    | Except.ok (a, st2) =>
      match f a b with
      | Except.error e => Except.error e
      | Except.ok r => Except.ok (r, st2)

/-- Mirrors `unary_operation`. -/
def unary_operation (f : ℚ → Except String ℚ) (stack : List ℚ) :
    Except String (ℚ × List ℚ) :=
  match pop_value stack with
  | Except.error e => Except.error e
  | Except.ok (a, st1) =>
    match f a with
    | Except.error e => Except.error e
    | Except.ok r => Except.ok (r, st1)

/-- Mirrors the anonymous-namespace `calculate(Operation, stack)` dispatch
combined with the `stack.push(...)` at its call site: compute the
operation's value and push it.  The division branch tests the divisor
(lambda parameter `b`, the first-popped value) against zero and throws
before any division is performed. -/
def calculate_op (op : Operation) (stack : List ℚ) : Except String (List ℚ) :=
  let push : Except String (ℚ × List ℚ) → Except String (List ℚ) := fun r =>
    match r with
    | Except.error e => Except.error e
    | Except.ok (v, st) => Except.ok (v :: st)
  match op with
  | Operation.add => push (binary_operation (fun a b => Except.ok (addQ a b)) stack)
  | Operation.sub => push (binary_operation (fun a b => Except.ok (subQ a b)) stack)
  | Operation.mul => push (binary_operation (fun a b => Except.ok (mulQ a b)) stack)
  | Operation.div =>
    push (binary_operation
      (fun a b =>
        if b = 0 then Except.error "Divizion on zero is not defined"
        else Except.ok (divQ a b)) stack)
  | Operation.pow => push (binary_operation (fun a b => Except.ok (powQ a b)) stack)
  | Operation.un_min => push (unary_operation (fun a => Except.ok (-a)) stack)
  | Operation.sqrt => push (unary_operation (fun a => Except.ok (sqrtQ a)) stack)

/-- Mirrors the `std::visit` loop of `calc::calculate` over the built
reverse-Polish sequence: a number is pushed, an operation is executed, and
a variable item does nothing (the `std::string` alternative's visitor body
is `;`). -/
def evalRPN : List Value → List ℚ → Except String (List ℚ)
  | [], stack => Except.ok stack
  | item :: rest, stack =>
    match item with
    | Value.num q => evalRPN rest (q :: stack)
    | Value.var _ => evalRPN rest stack
    | Value.op o =>
      match calculate_op o stack with
      | Except.error e => Except.error e
      | Except.ok st => evalRPN rest st

/-- Mirrors `struct Result` from `equation.h`. -/
structure Result where
  what : String
  result : ℚ
  ok : Bool
deriving DecidableEq, Repr

/-- Outcome of `calc::calculate` on a token list.  `emptyTopRead` marks the
one execution path with no defined C++ result: evaluation finished without
an exception but left the value stack empty, and the code reads
`stack.top()` of an empty `std::stack` (undefined behaviour) with no
emptiness check before returning `ok=true`. -/
inductive COutcome where
  | res (r : Result)
  | emptyTopRead
deriving DecidableEq, Repr

/-- Body of `calc::calculate` after tokenization: a builder failure via
`return false` yields the fixed `"Incorrect expression"` result (the
builder's own `what()` message is not consulted), a thrown
`std::runtime_error` is caught and its `what()` becomes the message, and
on success the top of the value stack is returned with `ok=true`. -/
def calc_on_tokens (tokens : List String) : COutcome :=
  match RPN_Builder_run tokens with
  | Except.error (BuildFailure.graceful _) => COutcome.res ⟨"Incorrect expression", 0, false⟩
  | Except.error (BuildFailure.thrown m) => COutcome.res ⟨m, 0, false⟩
  | Except.ok rpn =>
    match evalRPN rpn [] with
    | Except.error m => COutcome.res ⟨m, 0, false⟩
    | Except.ok [] => COutcome.emptyTopRead
    | Except.ok (v :: _) => COutcome.res ⟨"", v, true⟩

/-- Mirrors `calc::calculate`: tokenize (`none` = null input, and `none`
in the outer `Option` = the tokenizer model's divergence marker, hit by no
verified input), then run the builder and evaluator. -/
def calc_calculate (equation : Option String) : Option COutcome :=
  match getTokensC equation with
  | none => none
  | some tokens => some (calc_on_tokens tokens)

end Calc

deriving instance DecidableEq for Except

namespace Calc

/-- Bridge lemma: `addQ` is rational addition. -/
theorem addQ_eq (a b : ℚ) : addQ a b = a + b := by
  have ha : ((a.den : ℚ)) ≠ 0 := by exact_mod_cast a.den_nz
  have hb : ((b.den : ℚ)) ≠ 0 := by exact_mod_cast b.den_nz
  conv_rhs => rw [← Rat.num_div_den a, ← Rat.num_div_den b]
  rw [addQ, Rat.mkRat_eq_div, div_add_div _ _ ha hb]
  push_cast
  ring_nf

/-- Bridge lemma: `subQ` is rational subtraction. -/
theorem subQ_eq (a b : ℚ) : subQ a b = a - b := by
  have ha : ((a.den : ℚ)) ≠ 0 := by exact_mod_cast a.den_nz
  have hb : ((b.den : ℚ)) ≠ 0 := by exact_mod_cast b.den_nz
  conv_rhs => rw [← Rat.num_div_den a, ← Rat.num_div_den b]
  rw [subQ, Rat.mkRat_eq_div, div_sub_div _ _ ha hb]
  push_cast
  ring_nf

/-- Bridge lemma: `mulQ` is rational multiplication. -/
theorem mulQ_eq (a b : ℚ) : mulQ a b = a * b := by
  conv_rhs => rw [← Rat.num_div_den a, ← Rat.num_div_den b]
  rw [mulQ, Rat.mkRat_eq_div, div_mul_div_comm]
  push_cast
  ring_nf

/-- Bridge lemma: `invQ` is rational inversion. -/
theorem invQ_eq (a : ℚ) : invQ a = a⁻¹ := by
  rw [Rat.inv_def', invQ]
  rcases h : a.num with k | k
  · rw [if_pos (show (0 : ℤ) ≤ Int.ofNat k from Int.ofNat_nonneg k)]
    rw [show ((Int.ofNat k).toNat) = k from rfl, ← Rat.divInt_ofNat]
    norm_cast
  · rw [if_neg (not_le.2 (Int.negSucc_lt_zero k))]
    rw [show (Int.negSucc k) = -((k + 1 : ℕ) : ℤ) from rfl, Rat.divInt_neg',
      Rat.divInt_ofNat]
    norm_num

/-- Bridge lemma: `divQ` is rational division. -/
theorem divQ_eq (a b : ℚ) : divQ a b = a / b := by
  rw [divQ, mulQ_eq, invQ_eq, div_eq_mul_inv]

/-- Bridge lemma: `npowQ` is the rational natural power. -/
theorem npowQ_eq (a : ℚ) (n : ℕ) : npowQ a n = a ^ n := by
  induction n with
  | zero => rfl
  | succ n ih => rw [npowQ, mulQ_eq, ih, pow_succ]

/-- Bridge lemma: `powQ` at a natural exponent is the rational power. -/
theorem powQ_natCast (a : ℚ) (n : ℕ) : powQ a (n : ℚ) = a ^ n := by
  rw [powQ]
  rw [if_pos (by simp), if_pos (by simp)]
  simp [npowQ_eq]

/-- Helper: the tokenizer loop maps an all-whitespace character list to an
empty token list, for any fuel of the shape `m + 2` (which covers the fuel
`length + 2` supplied by `getTokens`). -/
theorem getTokensGo_allspace (l : List Char) (m : ℕ)
    (h : ∀ c ∈ l, isSpaceC c = true) : getTokensGo (m + 2) l [] = some [] := by
  cases l with
  | nil => rfl
  | cons c cs =>
    have hd : (c :: cs).dropWhile isSpaceC = [] := by
      rw [List.dropWhile_eq_nil_iff]
      exact fun x hx => h x hx
    show getTokensGo ((m + 1) + 1) (c :: cs) [] = some []
    rw [getTokensGo]
    simp only [hd]
    rfl

/-- Helper: a successful drain of the operator stack finds no open
parenthesis on it and appends one output item for every pending operator,
so the operator stack is completely consumed. -/
theorem drainOps_ok (ops : List TokType) : ∀ out r, drainOps ops out = Except.ok r →
    TokType.open_p ∉ ops ∧ r.length = out.length + ops.length := by
  induction ops with
  | nil =>
    intro out r h
    rw [drainOps] at h
    cases h
    simp
  | cons t rest ih =>
    intro out r h
    rw [drainOps] at h
    by_cases ht : t = TokType.open_p
    · rw [if_pos ht] at h
      cases h
    · rw [if_neg ht] at h
      cases hop : to_operation t with
      | error e => rw [hop] at h; cases h
      | ok o =>
        rw [hop] at h
        obtain ⟨h1, h2⟩ := ih (out ++ [Value.op o]) r h
        refine ⟨?_, ?_⟩
        · intro hmem
          rcases List.mem_cons.1 hmem with hh | hh
          · exact ht hh.symm
          · exact h1 hh
        · rw [h2, List.length_append]
          simp
          omega

/-- C1: the top-level calculate maps "2 + 3 * 4" to ok with 14, "(2 + 3) * 4"
to ok with 20, and "2 ^ 3 ^ 2" to ok with 64 — power associates
left-to-right, giving (2^3)^2 = 64 and not 512, because the operator loop
pops while the stack top's priority is greater than or equal to the current
operator's priority. -/
theorem C1_round_trip_precedence :
    calc_calculate (some "2 + 3 * 4") = some (COutcome.res ⟨"", 14, true⟩)
    ∧ calc_calculate (some "(2 + 3) * 4") = some (COutcome.res ⟨"", 20, true⟩)
    ∧ calc_calculate (some "2 ^ 3 ^ 2") = some (COutcome.res ⟨"", 64, true⟩)
    ∧ calc_calculate (some "2 ^ 3 ^ 2") ≠ some (COutcome.res ⟨"", 512, true⟩) := by
  refine ⟨by decide, by decide, by decide, by decide⟩

/-- C2 counterexample: the claim says the first-popped value `a` (the stack
top) is treated as the left-hand side, which for the postfix program
`5 3 sub` would give 3 - 5 = -2; the evaluator actually produces 2, so the
first-popped value is not the left-hand side. -/
theorem C2_top_not_lhs :
    evalRPN [Value.num 5, Value.num 3, Value.op Operation.sub] [] = Except.ok [2]
    ∧ (2 : ℚ) ≠ 3 - 5 := by
  refine ⟨by decide, by norm_num⟩

/-- C2 amended: for sub, div and pow the operand popped first (the stack
top, the operand pushed last, the one immediately preceding the operator in
postfix order) is the right-hand side: with stack `x :: y :: rest` the
results are y - x, powQ y x and y / x (the division conjunct assumes the
divisor x is non-zero, otherwise the evaluator raises the division-by-zero
failure instead). -/
theorem C2_pop_order_amended (x y : ℚ) (rest : List ℚ) :
    calculate_op Operation.sub (x :: y :: rest) = Except.ok ((y - x) :: rest)
    ∧ calculate_op Operation.pow (x :: y :: rest) = Except.ok (powQ y x :: rest)
    ∧ (x ≠ 0 →
        calculate_op Operation.div (x :: y :: rest) = Except.ok ((y / x) :: rest)) := by
  refine ⟨?_, ?_, ?_⟩
  · show Except.ok (subQ y x :: rest) = _
    rw [subQ_eq]
  · rfl
  · intro hx
    simp only [calculate_op, binary_operation, pop_value, if_neg hx, divQ_eq]

/-- C2 amended witness at the concrete stack top 2 over 5. -/
theorem C2_pop_order_amended_witness :
    calculate_op Operation.sub (2 :: 5 :: []) = Except.ok ((5 - 2 : ℚ) :: [])
    ∧ calculate_op Operation.pow (2 :: 5 :: []) = Except.ok (powQ 5 2 :: [])
    ∧ calculate_op Operation.div (2 :: 5 :: []) = Except.ok ((5 / 2 : ℚ) :: []) :=
  ⟨(C2_pop_order_amended 2 5 []).1, (C2_pop_order_amended 2 5 []).2.1,
    (C2_pop_order_amended 2 5 []).2.2 (by norm_num)⟩

/-- C3 counterexample: "3 - -5" does not evaluate to ok with 8; the second
minus follows a sub token, is not reclassified as unary, and the builder
rejects the token order, so the entry point returns ok=false. -/
theorem C3_double_minus_rejected :
    calc_calculate (some "3 - -5") = some (COutcome.res ⟨"Incorrect expression", 0, false⟩)
    ∧ calc_calculate (some "3 - -5") ≠ some (COutcome.res ⟨"", 8, true⟩) := by
  refine ⟨by decide, by decide⟩

/-- C3 amended: a sub token is reclassified as unary minus exactly when the
previous kind is undefined (start of expression) or open parenthesis; under
this rule "-3 + 5" evaluates to ok with 2, while "3 - -5" fails with a
token-order error (ok=false) because the second minus follows a sub token. -/
theorem C3_unary_minus_rule :
    (∀ prev : TokType, disambiguate_minus prev TokType.sub = TokType.un_min
      ↔ (prev = TokType.undefined ∨ prev = TokType.open_p))
    ∧ calc_calculate (some "-3 + 5") = some (COutcome.res ⟨"", 2, true⟩)
    ∧ calc_calculate (some "3 - -5")
      = some (COutcome.res ⟨"Incorrect expression", 0, false⟩) := by
  refine ⟨?_, by decide, by decide⟩
  intro prev
  cases prev <;> decide

/-- C4 counterexample: on the empty input the builder fails and records its
own no-operands description, but the entry point returns the fixed message
"Incorrect expression", not the stage's description. -/
theorem C4_message_not_propagated :
    calc_calculate (some "") = some (COutcome.res ⟨"Incorrect expression", 0, false⟩)
    ∧ RPN_Builder_run []
      = Except.error (BuildFailure.graceful "Expression does not contain any operands.")
    ∧ ("Incorrect expression" : String) ≠ "Expression does not contain any operands." := by
  refine ⟨by decide, by decide, by decide⟩

/-- C4 amended: a builder failure through its `return false` channel maps to
the uniform Result (ok=false, value=0) with the fixed message
"Incorrect expression" (the stage's own description is recorded in the
builder but not propagated); a thrown failure from either the builder or
the evaluator maps to (ok=false, value=0) with the thrown description; on
full success with a non-empty final value stack the Result is ok=true with
an empty message and the stack top. -/
theorem C4_result_mapping (toks : List String) :
    (∀ w, RPN_Builder_run toks = Except.error (BuildFailure.graceful w) →
      calc_on_tokens toks = COutcome.res ⟨"Incorrect expression", 0, false⟩)
    ∧ (∀ m, RPN_Builder_run toks = Except.error (BuildFailure.thrown m) →
      calc_on_tokens toks = COutcome.res ⟨m, 0, false⟩)
    ∧ (∀ rpn m, RPN_Builder_run toks = Except.ok rpn → evalRPN rpn [] = Except.error m →
      calc_on_tokens toks = COutcome.res ⟨m, 0, false⟩)
    ∧ (∀ rpn v st, RPN_Builder_run toks = Except.ok rpn → evalRPN rpn [] = Except.ok (v :: st) →
      calc_on_tokens toks = COutcome.res ⟨"", v, true⟩) := by
  refine ⟨?_, ?_, ?_, ?_⟩
  · intro w hw
    unfold calc_on_tokens
    rw [hw]
  · intro m hm
    unfold calc_on_tokens
    rw [hm]
  · intro rpn m h1 h2
    unfold calc_on_tokens
    rw [h1]
    simp only [h2]
  · intro rpn v st h1 h2
    unfold calc_on_tokens
    rw [h1]
    simp only [h2]

/-- C4 amended witness: the three reachable branches at concrete token
lists — a builder failure, a division-by-zero evaluator failure, and a
success. -/
theorem C4_result_mapping_witness :
    calc_on_tokens [] = COutcome.res ⟨"Incorrect expression", 0, false⟩
    ∧ calc_on_tokens ["5", "/", "0"]
      = COutcome.res ⟨"Divizion on zero is not defined", 0, false⟩
    ∧ calc_on_tokens ["2"] = COutcome.res ⟨"", 2, true⟩ :=
  ⟨(C4_result_mapping []).1 "Expression does not contain any operands." (by decide),
    (C4_result_mapping ["5", "/", "0"]).2.2.1
      [Value.num 5, Value.num 0, Value.op Operation.div]
      "Divizion on zero is not defined" (by decide) (by decide),
    (C4_result_mapping ["2"]).2.2.2 [Value.num 2] 2 [] (by decide) (by decide)⟩

/-- C5: the claim that a final value stack with zero values yields a
reported malformed-expression failure is wrong about the code — for the
compiler-accepted input "x" evaluation ends with an empty value stack and
the entry point reads the top of that empty stack (undefined behaviour)
with no emptiness check, instead of reporting ok=false. -/
theorem C5_unguarded_final_read :
    calc_calculate (some "x") = some COutcome.emptyTopRead := by decide

/-- C6: a division whose divisor operand (the stack top, popped first) is
exactly zero raises the division-by-zero failure before performing the
division, whatever the dividend and the rest of the stack; and "5 / 0"
yields ok=false with the division-by-zero message. -/
theorem C6_division_by_zero :
    (∀ (y : ℚ) (rest : List ℚ), calculate_op Operation.div (0 :: y :: rest)
      = Except.error "Divizion on zero is not defined")
    ∧ calc_calculate (some "5 / 0")
      = some (COutcome.res ⟨"Divizion on zero is not defined", 0, false⟩) := by
  refine ⟨?_, by decide⟩
  intro y rest
  rfl

/-- C7 counterexample: "2 + 3)" and "(2 + 3" both map to the identical
Result with the generic message "Incorrect expression", so the returned
message carries no unmatched-close indication (the distinguishing message
exists only inside the builder). -/
theorem C7_results_indistinguishable :
    calc_calculate (some "2 + 3)") = some (COutcome.res ⟨"Incorrect expression", 0, false⟩)
    ∧ calc_calculate (some "(2 + 3") = some (COutcome.res ⟨"Incorrect expression", 0, false⟩)
    ∧ RPN_Builder_run ["2", "+", "3", ")"]
      = Except.error (BuildFailure.graceful "Found extra close parentheses.")
    ∧ ("Incorrect expression" : String) ≠ "Found extra close parentheses." := by
  refine ⟨by decide, by decide, by decide, by decide⟩

/-- C7 amended: parenthesis mismatches are detected and distinguished by
the compiler — "2 + 3)" fails with the builder's extra-close message and
"(2 + 3" with its extra-open message, and both are mapped by the entry
point to ok=false (with the generic message, not the distinguishing one);
on a successful drain the operator stack holds no open parenthesis and is
completely consumed. -/
theorem C7_paren_mismatch :
    RPN_Builder_run ["2", "+", "3", ")"]
      = Except.error (BuildFailure.graceful "Found extra close parentheses.")
    ∧ RPN_Builder_run ["(", "2", "+", "3"]
      = Except.error (BuildFailure.graceful "Found extra open parentheses.")
    ∧ calc_on_tokens ["2", "+", "3", ")"] = COutcome.res ⟨"Incorrect expression", 0, false⟩
    ∧ calc_on_tokens ["(", "2", "+", "3"] = COutcome.res ⟨"Incorrect expression", 0, false⟩
    ∧ (∀ ops out r, drainOps ops out = Except.ok r →
        TokType.open_p ∉ ops ∧ r.length = out.length + ops.length) := by
  refine ⟨by decide, by decide, by decide, by decide, ?_⟩
  intro ops out r h
  exact drainOps_ok ops out r h

/-- C7 amended witness: the drain conjunct applied to the concrete pending
stack holding one addition operator. -/
theorem C7_paren_mismatch_witness :
    TokType.open_p ∉ [TokType.add]
    ∧ ([Value.op Operation.add] : List Value).length = ([] : List Value).length + 1 :=
  C7_paren_mismatch.2.2.2.2 [TokType.add] [] [Value.op Operation.add] (by decide)

/-- C8: a null or empty input yields zero tokens from the tokenizer (not a
failure at that stage), an all-whitespace input likewise, and the builder
then fails with its no-operands message, which the entry point maps to
ok=false. -/
theorem C8_empty_input :
    getTokensC none = some []
    ∧ getTokens "" = some []
    ∧ RPN_Builder_run []
      = Except.error (BuildFailure.graceful "Expression does not contain any operands.")
    ∧ calc_on_tokens [] = COutcome.res ⟨"Incorrect expression", 0, false⟩
    ∧ (∀ s : String, (∀ c ∈ s.data, isSpaceC c = true) → getTokens s = some []) := by
  refine ⟨by decide, by decide, by decide, by decide, ?_⟩
  intro s h
  rw [getTokens]
  exact getTokensGo_allspace s.data s.data.length h

/-- C8 witness: the whitespace-only conjunct at a concrete three-blank
input. -/
theorem C8_empty_input_witness : getTokens "   " = some [] :=
  C8_empty_input.2.2.2.2 "   " (by decide)

/-- C9: the classifier returns the matching keyword kind for each of the
eight fixed tokens; otherwise it returns the number kind with the parsed
value exactly when the whole token parses as a number (a consumed length
that is non-zero and equal to the token length), and a token of which only
a proper prefix parses as a number is classified as a variable, never
truncated. -/
theorem C9_classifier :
    to_token_type "(" = (TokType.open_p, 0)
    ∧ to_token_type ")" = (TokType.close_p, 0)
    ∧ to_token_type "+" = (TokType.add, 0)
    ∧ to_token_type "-" = (TokType.sub, 0)
    ∧ to_token_type "*" = (TokType.mul, 0)
    ∧ to_token_type "/" = (TokType.div, 0)
    ∧ to_token_type "^" = (TokType.pow, 0)
    ∧ to_token_type "sqrt" = (TokType.sqrt, 0)
    ∧ (∀ t v, tokens_map t = none → str_to_number t = some v →
        to_token_type t = (TokType.number, v))
    ∧ (∀ t, tokens_map t = none → str_to_number t = none →
        to_token_type t = (TokType.var, 0))
    ∧ (∀ t, tokens_map t = none →
        ((to_token_type t).1 = TokType.number ↔ str_to_number t ≠ none))
    ∧ (∀ t, tokens_map t = none → (strtodScan t.data).2 ≠ 0 →
        (strtodScan t.data).2 ≠ t.data.length → to_token_type t = (TokType.var, 0)) := by
  refine ⟨by decide, by decide, by decide, by decide, by decide, by decide, by decide,
    by decide, ?_, ?_, ?_, ?_⟩
  · intro t v h1 h2
    unfold to_token_type
    rw [h1, h2]
  · intro t h1 h2
    unfold to_token_type
    rw [h1, h2]
  · intro t h1
    unfold to_token_type
    rw [h1]
    cases h2 : str_to_number t with
    | none => simp [h2]
    | some v => simp [h2]
  · intro t h1 h2 h3
    have hn : str_to_number t = none := by
      rw [str_to_number]
      exact if_neg (fun hc => h3 hc.2)
    unfold to_token_type
    rw [h1, hn]

/-- C9 witness: a full numeric parse, a pure word, and a token whose proper
prefix alone parses as a number. -/
theorem C9_classifier_witness :
    to_token_type "2.5" = (TokType.number, mkRat 5 2)
    ∧ to_token_type "abc" = (TokType.var, 0)
    ∧ to_token_type "5x" = (TokType.var, 0) :=
  ⟨C9_classifier.2.2.2.2.2.2.2.2.1 "2.5" (mkRat 5 2) (by decide) (by decide),
    C9_classifier.2.2.2.2.2.2.2.2.2.1 "abc" (by decide) (by decide),
    C9_classifier.2.2.2.2.2.2.2.2.2.2.2 "5x" (by decide) (by decide) (by decide)⟩

/-- C10: the compiler accepts the single-variable input "x", producing the
one-item postfix sequence with the variable; evaluating it pushes nothing
onto the value stack, and the entry point then reads the top of the empty
value stack on its success path — no emptiness check guards the final
read. -/
theorem C10_variable_dropped :
    RPN_Builder_run ["x"] = Except.ok [Value.var "x"]
    ∧ evalRPN [Value.var "x"] [] = Except.ok []
    ∧ calc_on_tokens ["x"] = COutcome.emptyTopRead := by
  refine ⟨by decide, by decide, by decide⟩

end Calc
